import Mathlib

/-!
Shallow embedding of the CKD risk-prediction service core (src/main.py):
the feature extractor (_safe_mean, _normalize_latest, _extract_feature_values)
and the risk scorer (_risk_from_request).  Python floats are modelled as exact
rationals, the insertion-ordered contributions dict as an ordered association
list, and the stable descending sort by an explicit stable insertion sort.
-/

inductive Gender where
  | Male
  | Female
  | Other
deriving DecidableEq

structure Demographics where
  age : ℤ
  gender : Gender
deriving DecidableEq

structure Comorbidities where
  diabetes_mellitus : Bool
  hypertension : Bool
  anemia : Bool
deriving DecidableEq

structure LabVitalsPoint where
  timestamp : String
  creatinine : Option ℚ
  albumin : Option ℚ
  systolic_bp : Option ℚ
  heart_rate : Option ℚ
deriving DecidableEq

structure VitalsInput where
  systolic_bp : Option ℚ
  diastolic_bp : Option ℚ
  heart_rate : Option ℚ
deriving DecidableEq

structure UrineInput where
  urine_protein_pct : Option ℚ
  urine_bacteria_pct : Option ℚ
deriving DecidableEq

structure KFTInput where
  creatinine : Option ℚ
  urea : Option ℚ
  albumin : Option ℚ
  sodium : Option ℚ
  potassium : Option ℚ
  bicarbonate : Option ℚ
deriving DecidableEq

/-- A value of pydantic type Union[Model, List[Model]]. -/
inductive OneOrMany (α : Type) where
  | one : α → OneOrMany α
  | many : List α → OneOrMany α
deriving DecidableEq

structure PredictRequest where
  patient_id : String
  demographics : Demographics
  comorbidities : Comorbidities
  vitals : Option (OneOrMany VitalsInput)
  urine : Option (OneOrMany UrineInput)
  kft : Option (OneOrMany KFTInput)
  lab_vitals : Option (List LabVitalsPoint)
deriving DecidableEq

structure PredictResponse where
  risk_level : String
  probability : ℚ
  top_features : List String
  recommendations : List String
deriving DecidableEq

/-- Python truthiness of an Optional[Union[Model, List[Model]]] value:
None and the empty list are falsy; a model instance and a non-empty list
are truthy. -/
def truthy {α : Type} : Option (OneOrMany α) → Bool
  | none => false
  | some (OneOrMany.one _) => true
  | some (OneOrMany.many l) => !l.isEmpty

/-- Embeds _safe_mean: the arithmetic mean of the present values, None when
no value is present. -/
def safe_mean (values : List (Option ℚ)) : Option ℚ :=
  let present := values.filterMap id
  if present.isEmpty then none else some (present.sum / (present.length : ℚ))

/-- Embeds _normalize_latest: the last element of a list (a 422 error when
the list is empty), a single object as-is, None as None. -/
def normalize_latest {α : Type} (item : Option (OneOrMany α)) (name : String) :
    Except String (Option α) :=
  match item with
  | none => Except.ok none
  | some (OneOrMany.one a) => Except.ok (some a)
  | some (OneOrMany.many []) => Except.error (name ++ " array cannot be empty")
  | some (OneOrMany.many (a :: rest)) =>
    Except.ok (some ((a :: rest).getLast (List.cons_ne_nil a rest)))

/-- Embeds _extract_feature_values: the new-style groupings are used when kft
or vitals is truthy, else the legacy time-series per-field mean, else all four
features are missing. -/
def extract_feature_values (req : PredictRequest) :
    Except String (Option ℚ × Option ℚ × Option ℚ × Option ℚ) :=
  if truthy req.kft || truthy req.vitals then
    match normalize_latest req.kft ("kft") with
    | Except.error e => Except.error e
    | Except.ok kft_one =>
      match normalize_latest req.vitals ("vitals") with
      | Except.error e => Except.error e
      | Except.ok vitals_one =>
        Except.ok (kft_one.bind KFTInput.creatinine, kft_one.bind KFTInput.albumin,
          vitals_one.bind VitalsInput.systolic_bp, vitals_one.bind VitalsInput.heart_rate)
  else
    match req.lab_vitals with
    | some (p :: ps) =>
      Except.ok (safe_mean ((p :: ps).map LabVitalsPoint.creatinine),
        safe_mean ((p :: ps).map LabVitalsPoint.albumin),
        safe_mean ((p :: ps).map LabVitalsPoint.systolic_bp),
        safe_mean ((p :: ps).map LabVitalsPoint.heart_rate))
    | _ => Except.ok (none, none, none, none)

/-- Appends one recorded contribution and adds its value to the running
probability. -/
def record (s : List (String × ℚ) × ℚ) (name : String) (v : ℚ) :
    List (String × ℚ) × ℚ :=
  (s.1 ++ [(name, v)], s.2 + v)

/-- The initial state of _risk_from_request: the baseline entry of the
contributions dict and the base probability 0.10. -/
def baseline_state : List (String × ℚ) × ℚ :=
  ([(("baseline" : String), (1 : ℚ)/10)], (1 : ℚ)/10)

/-- The age-contribution block: clamp((age - 50) / 50 * 0.20, 0, 0.20),
recorded only when positive. -/
def age_stage (age : ℤ) (s : List (String × ℚ) × ℚ) : List (String × ℚ) × ℚ :=
  let age_contrib : ℚ := max 0 (min (1/5) (((age : ℚ) - 50) / 50 * (1/5)))
  if 0 < age_contrib then record s ("age") age_contrib else s

/-- Diabetes present adds 0.20. -/
def diabetes_stage (com : Comorbidities) (s : List (String × ℚ) × ℚ) :
    List (String × ℚ) × ℚ :=
  if com.diabetes_mellitus then record s ("diabetes_mellitus") (1/5) else s

/-- Hypertension present adds 0.20. -/
def hypertension_stage (com : Comorbidities) (s : List (String × ℚ) × ℚ) :
    List (String × ℚ) × ℚ :=
  if com.hypertension then record s ("hypertension") (1/5) else s

/-- Anemia present adds 0.10. -/
def anemia_stage (com : Comorbidities) (s : List (String × ℚ) × ℚ) :
    List (String × ℚ) × ℚ :=
  if com.anemia then record s ("anemia") (1/10) else s

/-- The creatinine block: excess above 1.2, scaled by 0.30, capped at 0.30,
recorded only when positive. -/
def creatinine_stage (mean_creatinine : Option ℚ) (s : List (String × ℚ) × ℚ) :
    List (String × ℚ) × ℚ :=
  match mean_creatinine with
  | some c =>
    let cr_over : ℚ := max 0 (c - 6/5)
    let cr_contrib : ℚ := max 0 (min (3/10) (cr_over / 1 * (3/10)))
    if 0 < cr_contrib then record s ("creatinine") cr_contrib else s
  | none => s

/-- The albumin block: a flat 0.10 when albumin is present and below 3.5. -/
def albumin_stage (mean_albumin : Option ℚ) (s : List (String × ℚ) × ℚ) :
    List (String × ℚ) × ℚ :=
  match mean_albumin with
  | some a => if a < 7/2 then record s ("albumin_low") (1/10) else s
  | none => s

/-- The systolic-blood-pressure block: 0.20 above 160, 0.10 above 140,
recorded only when positive. -/
def sbp_stage (mean_sbp : Option ℚ) (s : List (String × ℚ) × ℚ) :
    List (String × ℚ) × ℚ :=
  match mean_sbp with
  | some v =>
    let sbp_contrib : ℚ := if 160 < v then 1/5 else if 140 < v then 1/10 else 0
    if 0 < sbp_contrib then record s ("systolic_bp") sbp_contrib else s
  | none => s

/-- The heart-rate block: 0.05 when the heart rate is present and outside
[55, 100]. -/
def hr_stage (mean_hr : Option ℚ) (s : List (String × ℚ) × ℚ) :
    List (String × ℚ) × ℚ :=
  match mean_hr with
  | some h => if 100 < h ∨ h < 55 then record s ("heart_rate") (1/20) else s
  | none => s

/-- The contribution-accumulation phase of _risk_from_request: the source
blocks applied in source order to the baseline state; returns the
insertion-ordered contributions dict (baseline entry included) together with
the raw (pre-clamp) probability sum. -/
def score_contributions (age : ℤ) (com : Comorbidities)
    (mean_creatinine mean_albumin mean_sbp mean_hr : Option ℚ) :
    List (String × ℚ) × ℚ :=
  hr_stage mean_hr (sbp_stage mean_sbp (albumin_stage mean_albumin
    (creatinine_stage mean_creatinine (anemia_stage com (hypertension_stage com
      (diabetes_stage com (age_stage age baseline_state)))))))

/-- Final clamp of the probability to the interval [0, 0.99]. -/
def clamp_prob (p : ℚ) : ℚ := max 0 (min (99/100) p)

/-- Tier mapping from the (unrounded) clamped probability. -/
def risk_level_of (p : ℚ) : String :=
  if 7/10 ≤ p then "High Risk" else if 2/5 ≤ p then "Moderate Risk" else "Low Risk"

/-- Rounding to two decimal places; models Python round(p, 2).  (Python uses
round-half-to-even on binary floats; the two conventions differ only at exact
ties, which do not arise at any input considered in this development.) -/
def round2 (q : ℚ) : ℚ := ((round (q * 100) : ℤ) : ℚ) / 100

/-- Stable insertion, descending by contribution value: an element is placed
before the first element whose value is not larger, so earlier-inserted
elements stay ahead of later equal-valued ones. -/
def insert_desc (x : String × ℚ) : List (String × ℚ) → List (String × ℚ)
  | [] => [x]
  | y :: ys => if y.2 ≤ x.2 then x :: y :: ys else y :: insert_desc x ys

/-- Stable descending sort by contribution value: models
items.sort(key=value, reverse=True), which is a stable sort. -/
def sort_desc : List (String × ℚ) → List (String × ℚ)
  | [] => []
  | x :: xs => insert_desc x (sort_desc xs)

/-- The name_map dict from _risk_from_request (identity on every key except
albumin_low, which maps to albumin). -/
def name_map : List (String × String) :=
  [(("albumin_low" : String), ("albumin" : String)), (("systolic_bp"), ("systolic_bp")),
   (("heart_rate"), ("heart_rate")), (("diabetes_mellitus"), ("diabetes_mellitus")),
   (("hypertension"), ("hypertension")), (("anemia"), ("anemia")),
   (("age"), ("age")), (("creatinine"), ("creatinine"))]

/-- Embeds name_map.get(n, n). -/
def normalize_name (n : String) : String :=
  match name_map.find? (fun kv => kv.1 == n) with
  | some kv => kv.2
  | none => n

/-- Top-3 contributing features: baseline excluded, stable-sorted descending
by contribution, first three taken, fixed fallback when no contribution was
recorded, then name normalization. -/
def top_features_of (contributions : List (String × ℚ)) : List String :=
  let items := contributions.filter (fun kv => kv.1 != "baseline")
  let sorted := sort_desc items
  let top0 := (sorted.take 3).map Prod.fst
  let tf := if top0.isEmpty then [(("creatinine" : String)), (("age")), (("diabetes_mellitus"))]
    else top0
  tf.map normalize_name

/-- The condition mean_sbp is not None and mean_sbp > 140. -/
def sbp_over_140 : Option ℚ → Bool
  | some v => decide (140 < v)
  | none => false

/-- Recommendation assembly from _risk_from_request: five independent rules in
fixed order, the fixed fallback triple when none fired, truncation to the
first four entries. -/
def recommendations_of (top_features : List String) (mean_sbp : Option ℚ)
    (risk_level : String) : List String :=
  let recs : List String := []
  let recs := if ("creatinine") ∈ top_features then
      recs ++ [("Monitor creatinine levels" : String)] else recs
  let recs := if ("hypertension") ∈ top_features ∨ sbp_over_140 mean_sbp = true then
      recs ++ [("Check blood pressure daily" : String)] else recs
  let recs := if risk_level = "High Risk" then
      recs ++ [("Schedule nephrology consultation" : String)] else recs
  let recs := if ("diabetes_mellitus") ∈ top_features then
      recs ++ [("Optimize glycemic control" : String)] else recs
  let recs := if ("albumin") ∈ top_features then
      recs ++ [("Assess nutrition and albumin levels" : String)] else recs
  let recs := if recs.isEmpty then
      [("Maintain healthy lifestyle" : String), ("Follow up with primary care"),
       ("Repeat labs in 3 months")]
    else recs
  recs.take 4

/-- The risk scorer on the four extracted features: the body of
_risk_from_request after feature extraction. -/
def risk_core (age : ℤ) (com : Comorbidities)
    (mean_creatinine mean_albumin mean_sbp mean_hr : Option ℚ) : PredictResponse :=
  let s := score_contributions age com mean_creatinine mean_albumin mean_sbp mean_hr
  let probability := clamp_prob s.2
  let risk_level := risk_level_of probability
  let top_features := top_features_of s.1
  let recommendations := recommendations_of top_features mean_sbp risk_level
  { risk_level := risk_level, probability := round2 probability,
    top_features := top_features, recommendations := recommendations }

/-- Embeds _risk_from_request: feature extraction followed by the scorer core;
an extraction error propagates unchanged. -/
def risk_from_request (req : PredictRequest) : Except String PredictResponse :=
  match extract_feature_values req with
  | Except.error e => Except.error e
  | Except.ok (mc, ma, ms, mh) =>
    Except.ok (risk_core req.demographics.age req.comorbidities mc ma ms mh)

/-- Mean over exactly the points where the field is present; missing when the
field is present at no point.  Written from the specification wording of the
legacy safe-mean, for comparison with the safe_mean-based extraction. -/
def spec_mean (pts : List LabVitalsPoint) (f : LabVitalsPoint → Option ℚ) : Option ℚ :=
  if (pts.filterMap f).length = 0 then none
  else some ((pts.filterMap f).sum / ((pts.filterMap f).length : ℚ))

/-- Request of spec scenario 2: age 99 with diabetes and hypertension, no
measurements; its raw probability 0.696 rounds to 0.70 while the tier is
computed from the unrounded value. -/
def c2req : PredictRequest :=
  ⟨"p2", ⟨99, Gender.Female⟩, ⟨true, true, false⟩, none, none, none, none⟩

/-- Response the scorer returns on c2req. -/
def c2resp : PredictResponse :=
  ⟨"Moderate Risk", 7/10, [("diabetes_mellitus" : String), ("hypertension"), ("age")],
   [("Check blood pressure daily" : String), ("Optimize glycemic control")]⟩

/-- Request of spec scenario 2: age 70, diabetes and hypertension present,
creatinine 2.0, albumin 3.0, systolic 170, heart rate 90. -/
def c3req : PredictRequest :=
  ⟨"p3", ⟨70, Gender.Male⟩, ⟨true, true, false⟩,
    some (OneOrMany.one ⟨some 170, none, some 90⟩), none,
    some (OneOrMany.one ⟨some 2, none, some 3, none, none, none⟩), none⟩

/-- Response the scorer returns on c3req. -/
def c3resp : PredictResponse :=
  ⟨"High Risk", 99/100,
   [("creatinine" : String), ("diabetes_mellitus"), ("hypertension")],
   [("Monitor creatinine levels" : String), ("Check blood pressure daily"),
    ("Schedule nephrology consultation"), ("Optimize glycemic control")]⟩

/-- Request of spec scenario 1: age 30, no comorbidities, no measurements. -/
def c4req : PredictRequest :=
  ⟨"p4", ⟨30, Gender.Other⟩, ⟨false, false, false⟩, none, none, none, none⟩

/-- Response the scorer returns on c4req: the fallback top_features trigger
recommendation rules 1 and 4, so the fallback recommendation triple is not
returned. -/
def c4resp : PredictResponse :=
  ⟨"Low Risk", 1/10, [("creatinine" : String), ("age"), ("diabetes_mellitus")],
   [("Monitor creatinine levels" : String), ("Optimize glycemic control")]⟩

/-- Request whose only contribution is low albumin: exactly one recommendation
rule fires. -/
def c5req : PredictRequest :=
  ⟨"p5", ⟨30, Gender.Male⟩, ⟨false, false, false⟩, none, none,
    some (OneOrMany.one ⟨none, none, some 3, none, none, none⟩), none⟩

/-- Response the scorer returns on c5req: a single recommendation. -/
def c5resp : PredictResponse :=
  ⟨"Low Risk", 1/5, [("albumin" : String)], [("Assess nutrition and albumin levels" : String)]⟩

/-- Request supplying kft as an empty sequence and nothing else: the truthiness
test in _extract_feature_values skips the new-style branch, so no validation
error is raised. -/
def c6req : PredictRequest :=
  ⟨"p6", ⟨30, Gender.Male⟩, ⟨false, false, false⟩, none, none,
    some (OneOrMany.many []), none⟩

/-- Response the scorer returns on c6req (scoring proceeds normally). -/
def c6resp : PredictResponse :=
  ⟨"Low Risk", 1/10, [("creatinine" : String), ("age"), ("diabetes_mellitus")],
   [("Monitor creatinine levels" : String), ("Optimize glycemic control")]⟩

/-- Request with an empty kft sequence together with a truthy vitals object:
here the new-style branch is taken and the 422 error is raised. -/
def c6wreq : PredictRequest :=
  ⟨"p6w", ⟨30, Gender.Male⟩, ⟨false, false, false⟩,
    some (OneOrMany.one ⟨none, none, none⟩), none, some (OneOrMany.many []), none⟩

/-- Request with kft present as an empty sequence and a legacy point with
creatinine 5. -/
def c7reqA : PredictRequest :=
  ⟨"p7", ⟨30, Gender.Male⟩, ⟨false, false, false⟩, none, none,
    some (OneOrMany.many []), some [⟨"t", some 5, none, none, none⟩]⟩

/-- Same new-style fields as c7reqA but no legacy data. -/
def c7reqB : PredictRequest :=
  ⟨"p7", ⟨30, Gender.Male⟩, ⟨false, false, false⟩, none, none,
    some (OneOrMany.many []), none⟩

/-- Request with a truthy kft grouping and no legacy data. -/
def c7wreqA : PredictRequest :=
  ⟨"w7", ⟨40, Gender.Male⟩, ⟨false, false, false⟩, none, none,
    some (OneOrMany.one ⟨some 2, none, none, none, none, none⟩), none⟩

/-- Same truthy kft grouping as c7wreqA plus a legacy point that must be
ignored. -/
def c7wreqB : PredictRequest :=
  ⟨"w7", ⟨40, Gender.Male⟩, ⟨false, false, false⟩, none, none,
    some (OneOrMany.one ⟨some 2, none, none, none, none, none⟩),
    some [⟨"t", some 9, none, none, none⟩]⟩

/-- Legacy points with creatinine 1.0 and 2.0 and every other field missing. -/
def c8pts : List LabVitalsPoint :=
  [⟨"t1", some 1, none, none, none⟩, ⟨"t2", some 2, none, none, none⟩]

/-- Request supplying only the legacy list c8pts. -/
def c8req : PredictRequest :=
  ⟨"p8", ⟨30, Gender.Male⟩, ⟨false, false, false⟩, none, none, none, some c8pts⟩

/-- A guarded record step keeps the probability at or above the baseline. -/
theorem ite_record_ge {c : Prop} [Decidable c] {s : List (String × ℚ) × ℚ}
    {n : String} {v : ℚ} (hv : 0 ≤ v) (hs : 1/10 ≤ s.2) :
    1/10 ≤ (if c then record s n v else s).2 := by
  split
  · simp only [record]
    linarith
  · exact hs

theorem age_stage_ge (age : ℤ) {s : List (String × ℚ) × ℚ} (hs : 1/10 ≤ s.2) :
    1/10 ≤ (age_stage age s).2 :=
  ite_record_ge (le_max_left 0 _) hs

theorem diabetes_stage_ge (com : Comorbidities) {s : List (String × ℚ) × ℚ}
    (hs : 1/10 ≤ s.2) : 1/10 ≤ (diabetes_stage com s).2 :=
  ite_record_ge (by norm_num) hs

theorem hypertension_stage_ge (com : Comorbidities) {s : List (String × ℚ) × ℚ}
    (hs : 1/10 ≤ s.2) : 1/10 ≤ (hypertension_stage com s).2 :=
  ite_record_ge (by norm_num) hs

theorem anemia_stage_ge (com : Comorbidities) {s : List (String × ℚ) × ℚ}
    (hs : 1/10 ≤ s.2) : 1/10 ≤ (anemia_stage com s).2 :=
  ite_record_ge (by norm_num) hs

theorem creatinine_stage_ge (mc : Option ℚ) {s : List (String × ℚ) × ℚ}
    (hs : 1/10 ≤ s.2) : 1/10 ≤ (creatinine_stage mc s).2 := by
  rcases mc with _ | c
  · exact hs
  · exact ite_record_ge (le_max_left 0 _) hs

theorem albumin_stage_ge (ma : Option ℚ) {s : List (String × ℚ) × ℚ}
    (hs : 1/10 ≤ s.2) : 1/10 ≤ (albumin_stage ma s).2 := by
  rcases ma with _ | a
  · exact hs
  · exact ite_record_ge (by norm_num) hs

theorem sbp_stage_ge (ms : Option ℚ) {s : List (String × ℚ) × ℚ}
    (hs : 1/10 ≤ s.2) : 1/10 ≤ (sbp_stage ms s).2 := by
  rcases ms with _ | v
  · exact hs
  · exact ite_record_ge (by repeat' split <;> norm_num) hs

theorem hr_stage_ge (mh : Option ℚ) {s : List (String × ℚ) × ℚ}
    (hs : 1/10 ≤ s.2) : 1/10 ≤ (hr_stage mh s).2 := by
  rcases mh with _ | h
  · exact hs
  · exact ite_record_ge (by norm_num) hs

/-- The raw probability sum is at least the 0.10 baseline: every recorded
contribution is nonnegative. -/
theorem score_contributions_snd_ge (age : ℤ) (com : Comorbidities)
    (mc ma ms mh : Option ℚ) :
    1/10 ≤ (score_contributions age com mc ma ms mh).2 :=
  hr_stage_ge mh (sbp_stage_ge ms (albumin_stage_ge ma (creatinine_stage_ge mc
    (anemia_stage_ge com (hypertension_stage_ge com (diabetes_stage_ge com
      (age_stage_ge age (by norm_num [baseline_state]))))))))

/-- The probability field of the scorer output is the rounded clamped sum. -/
theorem risk_core_probability (age : ℤ) (com : Comorbidities) (mc ma ms mh : Option ℚ) :
    (risk_core age com mc ma ms mh).probability =
      round2 (clamp_prob (score_contributions age com mc ma ms mh).2) := rfl

/-- The risk_level field of the scorer output is the tier of the clamped sum. -/
theorem risk_core_risk_level (age : ℤ) (com : Comorbidities) (mc ma ms mh : Option ℚ) :
    (risk_core age com mc ma ms mh).risk_level =
      risk_level_of (clamp_prob (score_contributions age com mc ma ms mh).2) := rfl

/-- The recommendations field of the scorer output. -/
theorem risk_core_recommendations (age : ℤ) (com : Comorbidities) (mc ma ms mh : Option ℚ) :
    (risk_core age com mc ma ms mh).recommendations =
      recommendations_of (top_features_of (score_contributions age com mc ma ms mh).1) ms
        (risk_level_of (clamp_prob (score_contributions age com mc ma ms mh).2)) := rfl

/-- The clamped probability is nonnegative. -/
theorem clamp_prob_nonneg (p : ℚ) : 0 ≤ clamp_prob p := le_max_left 0 _

/-- The clamped probability is at most 0.99. -/
theorem clamp_prob_le (p : ℚ) : clamp_prob p ≤ 99/100 :=
  max_le (by norm_num) (min_le_left _ _)

/-- The clamp keeps any 0.10 lower bound. -/
theorem clamp_prob_ge {p : ℚ} (hp : 1/10 ≤ p) : 1/10 ≤ clamp_prob p :=
  le_trans (le_min (by norm_num) hp) (le_max_right _ _)

/-- Rounding to two decimals preserves nonnegativity. -/
theorem round2_nonneg {p : ℚ} (hp : 0 ≤ p) : 0 ≤ round2 p := by
  unfold round2
  have h1 : (0 : ℤ) ≤ round (p * 100) := by
    rw [round_eq]
    exact Int.le_floor.mpr (by push_cast; linarith)
  have h2 : (0 : ℚ) ≤ ((round (p * 100) : ℤ) : ℚ) := by exact_mod_cast h1
  linarith

/-- Rounding to two decimals preserves the 0.99 upper bound. -/
theorem round2_le_99 {p : ℚ} (hp : p ≤ 99/100) : round2 p ≤ 99/100 := by
  unfold round2
  have h1 : round (p * 100) ≤ 99 := by
    rw [round_eq]
    have h0 : ⌊p * 100 + 1/2⌋ < 100 := Int.floor_lt.mpr (by push_cast; linarith)
    omega
  have h2 : ((round (p * 100) : ℤ) : ℚ) ≤ 99 := by exact_mod_cast h1
  linarith

/-- Rounding to two decimals preserves the 0.10 lower bound. -/
theorem round2_ge_tenth {p : ℚ} (hp : 1/10 ≤ p) : 1/10 ≤ round2 p := by
  unfold round2
  have h1 : (10 : ℤ) ≤ round (p * 100) := by
    rw [round_eq]
    exact Int.le_floor.mpr (by push_cast; linarith)
  have h2 : (10 : ℚ) ≤ ((round (p * 100) : ℤ) : ℚ) := by exact_mod_cast h1
  linarith

/-- A successful scorer run is the scorer core applied to a successful
extraction. -/
theorem risk_from_request_ok {req : PredictRequest} {resp : PredictResponse}
    (h : risk_from_request req = Except.ok resp) :
    ∃ mc ma ms mh, extract_feature_values req = Except.ok (mc, ma, ms, mh) ∧
      resp = risk_core req.demographics.age req.comorbidities mc ma ms mh := by
  unfold risk_from_request at h
  rcases he : extract_feature_values req with e | t
  · rw [he] at h
    simp at h
  · obtain ⟨mc, ma, ms, mh⟩ := t
    rw [he] at h
    simp at h
    exact ⟨mc, ma, ms, mh, rfl, h.symm⟩

/-- The final recommendation list (fallback substituted, first four taken)
has between one and four elements. -/
theorem fallback_take_len (r : List String) (a b c : String) :
    1 ≤ ((if r.isEmpty then [a, b, c] else r).take 4).length ∧
      ((if r.isEmpty then [a, b, c] else r).take 4).length ≤ 4 := by
  constructor
  · split
    · simp
    · rename_i hr
      have hne : r ≠ [] := by simpa using hr
      have hlen : 0 < r.length := List.length_pos.mpr hne
      simp only [List.length_take]
      omega
  · simp only [List.length_take]
    split <;> simp

/-- The recommendation list always has between one and four elements. -/
theorem recommendations_of_length (t : List String) (m : Option ℚ) (l : String) :
    1 ≤ (recommendations_of t m l).length ∧ (recommendations_of t m l).length ≤ 4 := by
  unfold recommendations_of
  exact fallback_take_len _ _ _ _

/-- C1: for every input to the risk scorer the probability lies in the closed
interval [0, 0.99], both before rounding (the clamped probability) and after
rounding to two decimal places (the probability field of the returned
assessment). -/
theorem probability_bounds_before_and_after_rounding (age : ℤ) (com : Comorbidities)
    (mc ma ms mh : Option ℚ) :
    (0 ≤ clamp_prob (score_contributions age com mc ma ms mh).2 ∧
      clamp_prob (score_contributions age com mc ma ms mh).2 ≤ 99/100) ∧
    (0 ≤ (risk_core age com mc ma ms mh).probability ∧
      (risk_core age com mc ma ms mh).probability ≤ 99/100) := by
  have h1 := clamp_prob_nonneg (score_contributions age com mc ma ms mh).2
  have h2 := clamp_prob_le (score_contributions age com mc ma ms mh).2
  refine ⟨⟨h1, h2⟩, ?_, ?_⟩
  · rw [risk_core_probability]
    exact round2_nonneg h1
  · rw [risk_core_probability]
    exact round2_le_99 h2

/-- C9: the baseline 0.10 plus only nonnegative contributions keeps the
probability in [0.10, 0.99] both before and after rounding; the lower clamp
at zero is never the binding bound. -/
theorem probability_at_least_baseline (age : ℤ) (com : Comorbidities)
    (mc ma ms mh : Option ℚ) :
    (1/10 ≤ clamp_prob (score_contributions age com mc ma ms mh).2 ∧
      clamp_prob (score_contributions age com mc ma ms mh).2 ≤ 99/100) ∧
    (1/10 ≤ (risk_core age com mc ma ms mh).probability ∧
      (risk_core age com mc ma ms mh).probability ≤ 99/100) := by
  have h0 := score_contributions_snd_ge age com mc ma ms mh
  have h1 := clamp_prob_ge h0
  have h2 := clamp_prob_le (score_contributions age com mc ma ms mh).2
  refine ⟨⟨h1, h2⟩, ?_, ?_⟩
  · rw [risk_core_probability]
    exact round2_ge_tenth h1
  · rw [risk_core_probability]
    exact round2_le_99 h2

/-- C10: the urine grouping never influences the output; two requests that
differ only in the urine field receive identical responses (or identical
errors). -/
theorem urine_never_influences_output (req : PredictRequest)
    (u : Option (OneOrMany UrineInput)) :
    risk_from_request { req with urine := u } = risk_from_request req := rfl

/-- C2 counterexample: on c2req the returned (rounded) probability is 0.70,
yet the returned risk_level is "Moderate Risk", so the tier is not the claimed
band function of the returned probability field. -/
theorem risk_level_not_function_of_rounded_probability :
    risk_from_request c2req = Except.ok c2resp ∧ 7/10 ≤ c2resp.probability ∧
      c2resp.risk_level ≠ "High Risk" := by
  refine ⟨?_, by norm_num [c2resp], by decide⟩
  norm_num [risk_from_request, extract_feature_values, truthy, normalize_latest,
    risk_core, score_contributions, baseline_state, age_stage, diabetes_stage,
    hypertension_stage, anemia_stage, creatinine_stage, albumin_stage, sbp_stage,
    hr_stage, record, clamp_prob, risk_level_of, round2, round_eq, sort_desc,
    insert_desc, top_features_of, name_map, normalize_name, recommendations_of,
    sbp_over_140, c2req, c2resp, max_def, min_def, List.filter, List.find?]
  decide

/-- C2 amended: the risk level is the deterministic monotonic band function of
the probability before rounding (the clamped raw sum), with inclusive lower
boundaries at 0.40 and 0.70; the probability field is that value rounded
afterwards, so the bands need not hold of the returned rounded value. -/
theorem risk_level_bands_of_unrounded_probability (req : PredictRequest)
    (resp : PredictResponse) (h : risk_from_request req = Except.ok resp)
    (mc ma ms mh : Option ℚ)
    (he : extract_feature_values req = Except.ok (mc, ma, ms, mh))
    (p : ℚ)
    (hp : p = clamp_prob
      (score_contributions req.demographics.age req.comorbidities mc ma ms mh).2) :
    (7/10 ≤ p → resp.risk_level = "High Risk") ∧
    (2/5 ≤ p → p < 7/10 → resp.risk_level = "Moderate Risk") ∧
    (p < 2/5 → resp.risk_level = "Low Risk") := by
  obtain ⟨mc', ma', ms', mh', he', hresp⟩ := risk_from_request_ok h
  rw [he] at he'
  injection he' with hv
  obtain ⟨h1, h2, h3, h4⟩ : mc = mc' ∧ ma = ma' ∧ ms = ms' ∧ mh = mh' := by
    simp_all
  subst h1 h2 h3 h4
  subst hresp
  rw [risk_core_risk_level, ← hp]
  unfold risk_level_of
  refine ⟨fun hq => ?_, fun hq hq' => ?_, fun hq => ?_⟩
  · rw [if_pos hq]
  · rw [if_neg (by linarith), if_pos hq]
  · rw [if_neg (by linarith), if_neg (by linarith)]

/-- C2 amended witness: c2req has unrounded probability 0.696, which lies in
the moderate band, and indeed receives "Moderate Risk". -/
theorem risk_level_bands_witness :
    risk_from_request c2req = Except.ok c2resp ∧ c2resp.risk_level = "Moderate Risk" := by
  have hx : risk_from_request c2req = Except.ok c2resp := by
    norm_num [risk_from_request, extract_feature_values, truthy, normalize_latest,
      risk_core, score_contributions, baseline_state, age_stage, diabetes_stage,
      hypertension_stage, anemia_stage, creatinine_stage, albumin_stage, sbp_stage,
      hr_stage, record, clamp_prob, risk_level_of, round2, round_eq, sort_desc,
      insert_desc, top_features_of, name_map, normalize_name, recommendations_of,
      sbp_over_140, c2req, c2resp, max_def, min_def, List.filter, List.find?]
    decide
  have he : extract_feature_values c2req = Except.ok (none, none, none, none) := by
    norm_num [extract_feature_values, truthy, c2req]
  have hp : (87/125 : ℚ) = clamp_prob
      (score_contributions c2req.demographics.age c2req.comorbidities
        none none none none).2 := by
    norm_num [c2req, clamp_prob, score_contributions, baseline_state, age_stage,
      diabetes_stage, hypertension_stage, anemia_stage, creatinine_stage,
      albumin_stage, sbp_stage, hr_stage, record, max_def, min_def]
  exact ⟨hx, (risk_level_bands_of_unrounded_probability c2req c2resp hx
    none none none none he (87/125) hp).2.1 (by norm_num) (by norm_num)⟩

/-- C3 counterexample: on the scenario-2 request the 0.20 tie is broken by
insertion order diabetes, hypertension, systolic_bp, so top_features is not
the claimed list with hypertension and systolic_bp ahead of diabetes. -/
theorem scenario2_top_features_counterexample :
    risk_from_request c3req = Except.ok c3resp ∧
      c3resp.top_features ≠ [("creatinine" : String), ("hypertension"), ("systolic_bp")] := by
  refine ⟨?_, by decide⟩
  norm_num [risk_from_request, extract_feature_values, truthy, normalize_latest,
    risk_core, score_contributions, baseline_state, age_stage, diabetes_stage,
    hypertension_stage, anemia_stage, creatinine_stage, albumin_stage, sbp_stage,
    hr_stage, record, clamp_prob, risk_level_of, round2, round_eq, sort_desc,
    insert_desc, top_features_of, name_map, normalize_name, recommendations_of,
    sbp_over_140, c3req, c3resp, max_def, min_def, List.filter, List.find?]
  decide

/-- C3 amended: on the scenario-2 request the scorer returns probability 0.99
and "High Risk", and top_features equals [creatinine, diabetes_mellitus,
hypertension]: among the three 0.20 contributions the stable tie-break keeps
insertion order diabetes_mellitus, hypertension, systolic_bp. -/
theorem scenario2_response_exact :
    risk_from_request c3req = Except.ok c3resp ∧ c3resp.probability = 99/100 ∧
      c3resp.risk_level = "High Risk" ∧
      c3resp.top_features =
        [("creatinine" : String), ("diabetes_mellitus"), ("hypertension")] := by
  refine ⟨?_, rfl, rfl, rfl⟩
  norm_num [risk_from_request, extract_feature_values, truthy, normalize_latest,
    risk_core, score_contributions, baseline_state, age_stage, diabetes_stage,
    hypertension_stage, anemia_stage, creatinine_stage, albumin_stage, sbp_stage,
    hr_stage, record, clamp_prob, risk_level_of, round2, round_eq, sort_desc,
    insert_desc, top_features_of, name_map, normalize_name, recommendations_of,
    sbp_over_140, c3req, c3resp, max_def, min_def, List.filter, List.find?]
  decide

/-- C4 counterexample: on the scenario-1 request the fallback top_features
list contains creatinine and diabetes_mellitus, which fire recommendation
rules 1 and 4, so the returned recommendations are not the fallback triple. -/
theorem scenario1_recommendations_counterexample :
    risk_from_request c4req = Except.ok c4resp ∧
      c4resp.recommendations ≠ [("Maintain healthy lifestyle" : String),
        ("Follow up with primary care"), ("Repeat labs in 3 months")] := by
  refine ⟨?_, by decide⟩
  norm_num [risk_from_request, extract_feature_values, truthy, normalize_latest,
    risk_core, score_contributions, baseline_state, age_stage, diabetes_stage,
    hypertension_stage, anemia_stage, creatinine_stage, albumin_stage, sbp_stage,
    hr_stage, record, clamp_prob, risk_level_of, round2, round_eq, sort_desc,
    insert_desc, top_features_of, name_map, normalize_name, recommendations_of,
    sbp_over_140, c4req, c4resp, max_def, min_def, List.filter, List.find?]
  decide

/-- C4 amended: the scenario-1 request returns probability 0.10, "Low Risk",
the fallback top_features, and recommendations [Monitor creatinine levels,
Optimize glycemic control] (rules 1 and 4 fire off the fallback
top_features, so the fallback recommendation triple is not used). -/
theorem scenario1_response_exact :
    risk_from_request c4req = Except.ok c4resp ∧ c4resp.probability = 1/10 ∧
      c4resp.risk_level = "Low Risk" ∧
      c4resp.top_features = [("creatinine" : String), ("age"), ("diabetes_mellitus")] ∧
      c4resp.recommendations =
        [("Monitor creatinine levels" : String), ("Optimize glycemic control")] := by
  refine ⟨?_, rfl, rfl, rfl, rfl⟩
  norm_num [risk_from_request, extract_feature_values, truthy, normalize_latest,
    risk_core, score_contributions, baseline_state, age_stage, diabetes_stage,
    hypertension_stage, anemia_stage, creatinine_stage, albumin_stage, sbp_stage,
    hr_stage, record, clamp_prob, risk_level_of, round2, round_eq, sort_desc,
    insert_desc, top_features_of, name_map, normalize_name, recommendations_of,
    sbp_over_140, c4req, c4resp, max_def, min_def, List.filter, List.find?]
  decide

/-- C5 counterexample: on c5req only the albumin recommendation rule fires,
so the returned recommendations list has length 1, below the claimed minimum
of 3. -/
theorem recommendations_length_lt_three_example :
    risk_from_request c5req = Except.ok c5resp ∧ c5resp.recommendations.length = 1 ∧
      c5resp.recommendations.length < 3 := by
  refine ⟨?_, rfl, by decide⟩
  norm_num [risk_from_request, extract_feature_values, truthy, normalize_latest,
    risk_core, score_contributions, baseline_state, age_stage, diabetes_stage,
    hypertension_stage, anemia_stage, creatinine_stage, albumin_stage, sbp_stage,
    hr_stage, record, clamp_prob, risk_level_of, round2, round_eq, sort_desc,
    insert_desc, top_features_of, name_map, normalize_name, recommendations_of,
    sbp_over_140, c5req, c5resp, max_def, min_def, List.filter, List.find?]
  decide

/-- C5 amended: for every input on which the scorer succeeds, the returned
recommendations list is never empty and has between one and four elements
(the fallback triple guarantees nonemptiness, truncation caps at four, but
one or two fired rules yield fewer than three entries). -/
theorem recommendations_length_bounds (req : PredictRequest) (resp : PredictResponse)
    (h : risk_from_request req = Except.ok resp) :
    1 ≤ resp.recommendations.length ∧ resp.recommendations.length ≤ 4 := by
  obtain ⟨mc, ma, ms, mh, he, hresp⟩ := risk_from_request_ok h
  subst hresp
  rw [risk_core_recommendations]
  exact recommendations_of_length _ _ _

/-- C5 amended witness: the length bounds hold on c5req, whose returned list
has exactly one element. -/
theorem recommendations_length_bounds_witness :
    risk_from_request c5req = Except.ok c5resp ∧ 1 ≤ c5resp.recommendations.length ∧
      c5resp.recommendations.length ≤ 4 := by
  have hx : risk_from_request c5req = Except.ok c5resp := by
    norm_num [risk_from_request, extract_feature_values, truthy, normalize_latest,
      risk_core, score_contributions, baseline_state, age_stage, diabetes_stage,
      hypertension_stage, anemia_stage, creatinine_stage, albumin_stage, sbp_stage,
      hr_stage, record, clamp_prob, risk_level_of, round2, round_eq, sort_desc,
      insert_desc, top_features_of, name_map, normalize_name, recommendations_of,
      sbp_over_140, c5req, c5resp, max_def, min_def, List.filter, List.find?]
    decide
  exact ⟨hx, (recommendations_length_bounds c5req c5resp hx).1,
    (recommendations_length_bounds c5req c5resp hx).2⟩

/-- Needed below: the bridge between the implementation safe_mean over mapped
fields and the per-field mean over exactly the present points. -/
theorem safe_mean_map_eq_spec_mean (pts : List LabVitalsPoint)
    (f : LabVitalsPoint → Option ℚ) :
    safe_mean (pts.map f) = spec_mean pts f := by
  unfold safe_mean spec_mean
  rw [List.filterMap_map]
  by_cases h : pts.filterMap (id ∘ f) = []
  · rw [h]
    have h2 : pts.filterMap f = [] := by simpa using h
    rw [h2]
    simp
  · have h2 : pts.filterMap f ≠ [] := by simpa using h
    rw [if_neg (by simpa [List.isEmpty_iff] using h)]
    rw [if_neg (by simpa [List.length_eq_zero] using h2)]
    simp

/-- C6 counterexample: kft supplied as an empty sequence (and nothing else)
is falsy, so the new-style branch is skipped entirely: extraction returns all
features missing, no validation error is raised, and scoring proceeds. -/
theorem empty_kft_no_error_example :
    c6req.kft = some (OneOrMany.many []) ∧
    extract_feature_values c6req = Except.ok (none, none, none, none) ∧
      risk_from_request c6req = Except.ok c6resp := by
  refine ⟨rfl, by norm_num [extract_feature_values, truthy, c6req], ?_⟩
  norm_num [risk_from_request, extract_feature_values, truthy, normalize_latest,
    risk_core, score_contributions, baseline_state, age_stage, diabetes_stage,
    hypertension_stage, anemia_stage, creatinine_stage, albumin_stage, sbp_stage,
    hr_stage, record, clamp_prob, risk_level_of, round2, round_eq, sort_desc,
    insert_desc, top_features_of, name_map, normalize_name, recommendations_of,
    sbp_over_140, c6req, c6resp, max_def, min_def, List.filter, List.find?]
  decide

/-- C6 amended: a validation error for an empty kft or vitals sequence is
raised exactly when the new-style branch is taken, i.e. when at least one of
the two groupings is truthy; the error then precedes all scoring. -/
theorem empty_sequence_error_when_branch_taken (req : PredictRequest)
    (ht : truthy req.kft = true ∨ truthy req.vitals = true)
    (he : req.kft = some (OneOrMany.many ([] : List KFTInput)) ∨
      req.vitals = some (OneOrMany.many ([] : List VitalsInput))) :
    (extract_feature_values req = Except.error ("kft array cannot be empty") ∨
      extract_feature_values req = Except.error ("vitals array cannot be empty")) ∧
    ∀ resp : PredictResponse, risk_from_request req ≠ Except.ok resp := by
  have hcond : (truthy req.kft || truthy req.vitals) = true := by
    rcases ht with h | h <;> simp [h]
  have hmain : extract_feature_values req = Except.error ("kft array cannot be empty") ∨
      extract_feature_values req = Except.error ("vitals array cannot be empty") := by
    rcases he with hk | hv
    · left
      unfold extract_feature_values
      rw [if_pos hcond, hk]
      rfl
    · rcases hkk : req.kft with _ | k
      · right
        unfold extract_feature_values
        rw [if_pos hcond, hkk, hv]
        rfl
      · rcases k with a | l
        · right
          unfold extract_feature_values
          rw [if_pos hcond, hkk, hv]
          rfl
        · rcases l with _ | ⟨x, xs⟩
          · left
            unfold extract_feature_values
            rw [if_pos hcond, hkk]
            rfl
          · right
            unfold extract_feature_values
            rw [if_pos hcond, hkk, hv]
            rfl
  refine ⟨hmain, ?_⟩
  intro resp hcontra
  unfold risk_from_request at hcontra
  rcases hmain with h | h <;> rw [h] at hcontra <;> simp at hcontra

/-- C6 amended witness: with a truthy vitals object alongside an empty kft
sequence the branch is taken and the kft validation error is raised. -/
theorem empty_sequence_error_witness :
    extract_feature_values c6wreq = Except.error ("kft array cannot be empty") ∨
      extract_feature_values c6wreq = Except.error ("vitals array cannot be empty") :=
  (empty_sequence_error_when_branch_taken c6wreq (Or.inr rfl) (Or.inl rfl)).1

/-- C7 counterexample: c7reqA and c7reqB agree on every new-style grouping and
kft is present (an empty sequence) in both, yet the extracted features differ
with the legacy list: presence alone does not make the extractor ignore
legacy data. -/
theorem legacy_influences_despite_kft_present :
    c7reqA.kft = c7reqB.kft ∧ c7reqA.vitals = c7reqB.vitals ∧ c7reqA.kft ≠ none ∧
      extract_feature_values c7reqA = Except.ok (some 5, none, none, none) ∧
      extract_feature_values c7reqB = Except.ok (none, none, none, none) ∧
      extract_feature_values c7reqA ≠ extract_feature_values c7reqB := by
  have h4 : extract_feature_values c7reqA = Except.ok (some 5, none, none, none) := by
    norm_num [extract_feature_values, truthy, safe_mean, c7reqA, List.filterMap]
  have h5 : extract_feature_values c7reqB = Except.ok (none, none, none, none) := by
    norm_num [extract_feature_values, truthy, c7reqB]
  refine ⟨rfl, rfl, by decide, h4, h5, ?_⟩
  rw [h4, h5]
  intro hcontra
  simp at hcontra

/-- C7 amended: when at least one new-style grouping is truthy (a single
object or a non-empty sequence), the extraction result depends only on the
kft and vitals fields: any legacy data is ignored. -/
theorem newstyle_truthy_ignores_legacy (r1 r2 : PredictRequest)
    (ht : truthy r1.kft = true ∨ truthy r1.vitals = true)
    (hk : r1.kft = r2.kft) (hv : r1.vitals = r2.vitals) :
    extract_feature_values r1 = extract_feature_values r2 := by
  have h1 : (truthy r1.kft || truthy r1.vitals) = true := by
    rcases ht with h | h <;> simp [h]
  have h2 : (truthy r2.kft || truthy r2.vitals) = true := by
    rw [← hk, ← hv]
    exact h1
  unfold extract_feature_values
  rw [if_pos h1, if_pos h2, hk, hv]

/-- C7 amended witness: a truthy kft object makes extraction identical with
and without an accompanying legacy list. -/
theorem newstyle_truthy_ignores_legacy_witness :
    truthy c7wreqA.kft = true ∧ c7wreqA.lab_vitals ≠ c7wreqB.lab_vitals ∧
      extract_feature_values c7wreqA = extract_feature_values c7wreqB :=
  ⟨rfl, by decide, newstyle_truthy_ignores_legacy c7wreqA c7wreqB (Or.inl rfl) rfl rfl⟩

/-- C8: with no new-style groupings and a non-empty legacy list, every
extracted feature is the arithmetic mean of the field over exactly the points
where it is present, and is missing (never zero) when the field is present at
no point. -/
theorem legacy_safe_mean_semantics (req : PredictRequest) (pts : List LabVitalsPoint)
    (hk : req.kft = none) (hv : req.vitals = none) (hl : req.lab_vitals = some pts)
    (hne : pts ≠ []) :
    extract_feature_values req = Except.ok (spec_mean pts LabVitalsPoint.creatinine,
      spec_mean pts LabVitalsPoint.albumin, spec_mean pts LabVitalsPoint.systolic_bp,
      spec_mean pts LabVitalsPoint.heart_rate) := by
  rcases pts with _ | ⟨p, ps⟩
  · exact absurd rfl hne
  · unfold extract_feature_values
    rw [hk, hv, hl]
    rw [if_neg (by simp [truthy])]
    simp only [safe_mean_map_eq_spec_mean]

/-- C8 witness: legacy points with creatinine 1.0 and 2.0 and albumin absent
everywhere yield mean creatinine 1.5 and missing albumin. -/
theorem legacy_safe_mean_witness :
    extract_feature_values c8req = Except.ok (some ((3:ℚ)/2), none, none, none) := by
  have h := legacy_safe_mean_semantics c8req c8pts rfl rfl rfl (by decide)
  rw [h]
  norm_num [spec_mean, c8pts, List.filterMap]
